import Mathlib

/-!
Verification of the `recorder-es` audio recorder (`src/recorder.ts`).

The `Recorder` class wraps the platform `MediaRecorder`.  We embed its
observable state and operations shallowly:

* `RecorderM` mirrors the instance fields (`mediaRecorder`, `audioStream`,
  `chunks`, `options`, `eventHandlers`) plus the `EventTarget` listener
  registry the class inherits.
* Binary data (`Blob`) is a list of bytes plus a MIME-type tag; `size` is
  its length.
* The platform collaborators are parameters: `Env.device` is the result of
  `navigator.mediaDevices.getUserMedia`, `Env.supported` is
  `MediaRecorder.isTypeSupported`.  Per the MediaRecorder contract, the
  `MediaRecorder` constructor throws a `NotSupportedError` exactly when the
  requested MIME type is unsupported; `startPhase2` models that.
* Each operation returns a `StepOut`: the new instance state, the public
  events dispatched through `dispatchEvent`, the handler ids invoked (in
  invocation order), and the ids of stopped `MediaStream` tracks.
* The listeners the class attaches to the underlying `MediaRecorder`
  (`start`/`stop`/`pause`/`resume`/`dataavailable`/`error`) become the
  `...Fired` relay functions, run when the underlying recorder fires the
  corresponding event.
-/

namespace RecorderEs

/-- Opaque binary content of a chunk, as bytes. -/
abbrev Bytes := List Nat

/-- A `Blob`: binary data tagged with a MIME type.  `size` is the byte count. -/
structure Blob where
  data : Bytes
  type : String
deriving Repr, DecidableEq

/-- `Blob.size`, the number of bytes. -/
def Blob.size (b : Blob) : Nat := b.data.length

/-- `new Blob(parts, { type })`: the ordered concatenation of the parts. -/
def Blob.joined (parts : List Blob) (type : String) : Blob :=
  ⟨(parts.map Blob.data).flatten, type⟩

/-- The `RecorderState` type of `types.ts`: `'inactive' | 'recording' | 'paused'`. -/
inductive RecorderState
  | inactive
  | recording
  | paused
deriving Repr, DecidableEq

/-- Errors thrown by the recorder or its platform collaborators.  The first
four are the guard errors of `start`/`stop`/`pause`/`resume`;
`deviceUnavailable` models a `getUserMedia` rejection (permission denied or
no device); `unsupportedFormat` models the `NotSupportedError` the
`MediaRecorder` constructor throws for an unsupported MIME type. -/
inductive RecError
  | alreadyActive
  | notActive
  | notRecording
  | notPaused
  | deviceUnavailable
  | unsupportedFormat
deriving Repr, DecidableEq

/-- A live `MediaStream`: the ids of its audio tracks. -/
structure MediaStream where
  tracks : List Nat
deriving Repr, DecidableEq

/-- The underlying `MediaRecorder` instance: the MIME type and bitrate it was
constructed with, the timeslice passed to `start`, and its own state. -/
structure MediaRecorderM where
  mimeType : String
  audioBitsPerSecond : Nat
  timeslice : Nat
  recState : RecorderState
deriving Repr, DecidableEq

/-- The event kinds of `RecorderEventMap`. -/
inductive EvKind
  | start
  | stop
  | pause
  | resume
  | dataavailable
  | error
deriving Repr, DecidableEq

/-- A public event dispatched through `dispatchEvent`. -/
inductive Ev
  | start
  | stop
  | pause
  | resume
  | dataavailable (data : Blob) (timecode : Nat)
  | error (msg : String)
deriving Repr, DecidableEq

/-- The `RecorderOptions` record of `types.ts`: every field optional.
Handler callbacks are identified by numeric ids. -/
structure RecorderOptions where
  mimeType : Option String := none
  audioBitsPerSecond : Option Nat := none
  timeslice : Option Nat := none
  onStart : Option Nat := none
  onStop : Option Nat := none
  onPause : Option Nat := none
  onResume : Option Nat := none
  onDataAvailable : Option Nat := none
  onError : Option Nat := none
deriving Repr, DecidableEq

/-- The `Required<Omit<RecorderOptions, handlers>>` record stored in
`this.options`. -/
structure ReqOptions where
  mimeType : String
  audioBitsPerSecond : Nat
  timeslice : Nat
deriving Repr, DecidableEq

/-- The `this.eventHandlers` record: at most one construction-time handler
per event kind. -/
structure EventHandlers where
  onStart : Option Nat := none
  onStop : Option Nat := none
  onPause : Option Nat := none
  onResume : Option Nat := none
  onDataAvailable : Option Nat := none
  onError : Option Nat := none
deriving Repr, DecidableEq

/-- The observable instance state of a `Recorder`: its private fields plus
the inherited `EventTarget` listener registry (kind/handler pairs in
registration order). -/
structure RecorderM where
  mediaRecorder : Option MediaRecorderM := none
  audioStream : Option MediaStream := none
  chunks : List Blob := []
  options : ReqOptions
  eventHandlers : EventHandlers := {}
  listeners : List (EvKind × Nat) := []
deriving Repr, DecidableEq

/-- JavaScript `v || d` for an optional string: `undefined` and `''` are
falsy. -/
def orDefaultStr : Option String → String → String
  | none, d => d
  | some s, d => if s = "" then d else s

/-- JavaScript `v || d` for an optional number: `undefined` and `0` are
falsy. -/
def orDefaultNat : Option Nat → Nat → Nat
  | none, d => d
  | some n, d => if n = 0 then d else n

/-- The private constructor (via `Recorder.create`): defaults the option
fields with `||` and copies each provided handler into `eventHandlers`.
No listener is registered in the `EventTarget` registry. -/
def mkRecorder (opts : RecorderOptions) : RecorderM :=
  { mediaRecorder := none
    audioStream := none
    chunks := []
    options :=
      { mimeType := orDefaultStr opts.mimeType "audio/webm;codecs=opus"
        audioBitsPerSecond := orDefaultNat opts.audioBitsPerSecond 128000
        timeslice := orDefaultNat opts.timeslice 1000 }
    eventHandlers :=
      { onStart := opts.onStart
        onStop := opts.onStop
        onPause := opts.onPause
        onResume := opts.onResume
        onDataAvailable := opts.onDataAvailable
        onError := opts.onError }
    listeners := [] }

/-- The `state` getter: `'inactive'` when `mediaRecorder` is `null`,
otherwise the underlying recorder's state. -/
def RecorderM.state (r : RecorderM) : RecorderState :=
  match r.mediaRecorder with
  | none => .inactive
  | some m => m.recState

/-- The `mimeType` getter: `this.mediaRecorder?.mimeType || this.options.mimeType`. -/
def RecorderM.mimeTypeGet (r : RecorderM) : String :=
  match r.mediaRecorder with
  | none => r.options.mimeType
  | some m => if m.mimeType = "" then r.options.mimeType else m.mimeType

/-- `cleanup()`: stop every track of `audioStream`, null it, null
`mediaRecorder`, clear `chunks`.  Returns the new state and the ids of the
tracks that were stopped. -/
def cleanup (r : RecorderM) : RecorderM × List Nat :=
  match r.audioStream with
  | some s =>
      ({ r with audioStream := none, mediaRecorder := none, chunks := [] }, s.tracks)
  | none => ({ r with mediaRecorder := none, chunks := [] }, [])

/-- The hard-coded fallback MIME types tried by `start()` when the preferred
type is unsupported, in source order. -/
def fallbackTypes : List String :=
  ["audio/webm", "audio/ogg", "audio/mp4", "audio/wav"]

/-- The `for ... of` loop with `break`: the first element satisfying
`supported`, if any. -/
def firstSupported (supported : String → Bool) : List String → Option String
  | [] => none
  | t :: rest => if supported t then some t else firstSupported supported rest

/-- The MIME-type selection of `start()`: keep the preferred type if
supported, otherwise the first supported fallback; if nothing is supported
the (unsupported) preferred type is kept. -/
def negotiateMime (supported : String → Bool) (preferred : String) : String :=
  if supported preferred then preferred
  else
    match firstSupported supported fallbackTypes with
    | some t => t
    | none => preferred

/-- A singleton list for a present handler, else empty. -/
def handlerList : Option Nat → List Nat
  | some h => [h]
  | none => []

/-- The construction-time handler stored for a given event kind. -/
def ctorHandler (eh : EventHandlers) : EvKind → Option Nat
  | .start => eh.onStart
  | .stop => eh.onStop
  | .pause => eh.onPause
  | .resume => eh.onResume
  | .dataavailable => eh.onDataAvailable
  | .error => eh.onError

/-- `EventTarget` dispatch: the listeners registered for a kind, in
registration order. -/
def dispatchList (l : List (EvKind × Nat)) (k : EvKind) : List Nat :=
  match l with
  | [] => []
  | p :: rest => if p.1 = k then p.2 :: dispatchList rest k else dispatchList rest k

/-- One publication of an event of kind `k`, as the class performs it:
`dispatchEvent` to the registered `EventTarget` listeners, then the direct
call of the construction-time handler (`this.eventHandlers.onX?.()`).
Returns the handler ids in invocation order. -/
def publish (r : RecorderM) (k : EvKind) : List Nat :=
  dispatchList r.listeners k ++ handlerList (ctorHandler r.eventHandlers k)

/-- An ad-hoc subscription (`onStart` .. `onError` methods): wraps the
handler in a fresh listener and appends it to the `EventTarget` registry. -/
def subscribe (r : RecorderM) (k : EvKind) (h : Nat) : RecorderM :=
  { r with listeners := r.listeners ++ [(k, h)] }

/-- Subscribe a list of ad-hoc handlers for one kind, in order. -/
def subscribeAll (r : RecorderM) (k : EvKind) (hs : List Nat) : RecorderM :=
  hs.foldl (fun acc h => subscribe acc k h) r

/-- The result of one operation or relay step: the new instance state, the
public events dispatched, the handler ids invoked, and the ids of the
`MediaStream` tracks stopped. -/
structure StepOut where
  st : RecorderM
  events : List Ev
  handlers : List Nat
  stoppedTracks : List Nat
deriving Repr, DecidableEq

/-- The platform collaborators of `start()`: the `getUserMedia` outcome and
the `MediaRecorder.isTypeSupported` predicate. -/
structure Env where
  device : Except RecError MediaStream
  supported : String → Bool

/-- The continuation of `start()` after `await getUserMedia` resolves,
running against the instance state current at resolution time:
on rejection, `cleanup()` and rethrow; on grant, store the stream, select
the MIME type, construct the `MediaRecorder` (which per its contract throws
`NotSupportedError` exactly when the selected type is unsupported — then
caught, cleaned up and rethrown), call `start(timeslice)` and clear
`chunks`. -/
def startPhase2 (supported : String → Bool) (r : RecorderM)
    (dev : Except RecError MediaStream) : StepOut × Except RecError Unit :=
  match dev with
  | .error e =>
      let c := cleanup r
      (⟨c.1, [], [], c.2⟩, .error e)
  | .ok s =>
      let r1 := { r with audioStream := some s }
      let mime := negotiateMime supported r.options.mimeType
      if supported mime then
        (⟨{ r1 with
              mediaRecorder :=
                some ⟨mime, r.options.audioBitsPerSecond, r.options.timeslice,
                      .recording⟩
              chunks := [] }, [], [], []⟩, .ok ())
      else
        let c := cleanup r1
        (⟨c.1, [], [], c.2⟩, .error .unsupportedFormat)

/-- `start()`: throw `AlreadyActive` while `this.mediaRecorder` exists and
the state is not `'inactive'`; otherwise await the device and continue with
`startPhase2`.  No public event is dispatched by `start()` itself — the
`start` event is relayed only when the underlying recorder fires it. -/
def start (env : Env) (r : RecorderM) : StepOut × Except RecError Unit :=
  if r.mediaRecorder.isSome ∧ r.state ≠ .inactive then
    (⟨r, [], [], []⟩, .error .alreadyActive)
  else startPhase2 env.supported r env.device

/-- The `'start'` listener installed on the underlying recorder: dispatch a
public `start` event and call the construction-time handler. -/
def startFired (r : RecorderM) : StepOut :=
  ⟨r, [Ev.start], publish r .start, []⟩

/-- The `'pause'` listener relay. -/
def pauseFired (r : RecorderM) : StepOut :=
  ⟨r, [Ev.pause], publish r .pause, []⟩

/-- The `'resume'` listener relay. -/
def resumeFired (r : RecorderM) : StepOut :=
  ⟨r, [Ev.resume], publish r .resume, []⟩

/-- The `'dataavailable'` listener relay: only when `event.data.size > 0`
is the chunk pushed onto `this.chunks`, a `BlobEvent` dispatched and the
construction-time handler called.  A zero-size chunk does nothing. -/
def dataavailableFired (r : RecorderM) (data : Blob) (now : Nat) : StepOut :=
  if 0 < data.size then
    ⟨{ r with chunks := r.chunks ++ [data] }, [Ev.dataavailable data now],
      publish r .dataavailable, []⟩
  else ⟨r, [], [], []⟩

/-- The `'error'` listener relay: dispatch an `ErrorEvent` and call the
construction-time handler.  Nothing else: no state transition, no
`cleanup()`, no track is stopped. -/
def errorFired (r : RecorderM) (msg : String) : StepOut :=
  ⟨r, [Ev.error msg], publish r .error, []⟩

/-- `pause()`: throw `NotRecording` unless the state is `'recording'`,
otherwise pause the underlying recorder. -/
def pause (r : RecorderM) : StepOut × Except RecError Unit :=
  match r.mediaRecorder with
  | none => (⟨r, [], [], []⟩, .error .notRecording)
  | some m =>
      if m.recState ≠ .recording then (⟨r, [], [], []⟩, .error .notRecording)
      else
        (⟨{ r with mediaRecorder := some { m with recState := .paused } },
            [], [], []⟩, .ok ())

/-- `resume()`: throw `NotPaused` unless the state is `'paused'`, otherwise
resume the underlying recorder. -/
def resume (r : RecorderM) : StepOut × Except RecError Unit :=
  match r.mediaRecorder with
  | none => (⟨r, [], [], []⟩, .error .notPaused)
  | some m =>
      if m.recState ≠ .paused then (⟨r, [], [], []⟩, .error .notPaused)
      else
        (⟨{ r with mediaRecorder := some { m with recState := .recording } },
            [], [], []⟩, .ok ())

/-- `stop()`: throw `NotActive` while `this.mediaRecorder` is `null` or the
state is `'inactive'`.  Otherwise the underlying recorder is stopped and on
its `stop` event the class first relays the public `stop` event (the
listener installed by `start()`), then `handleStop` assembles
`new Blob(this.chunks, { type: this.mimeType })`, runs `cleanup()` and
resolves with the blob. -/
def stop (r : RecorderM) : StepOut × Except RecError Blob :=
  match r.mediaRecorder with
  | none => (⟨r, [], [], []⟩, .error .notActive)
  | some m =>
      if m.recState = .inactive then (⟨r, [], [], []⟩, .error .notActive)
      else
        let blob := Blob.joined r.chunks r.mimeTypeGet
        let c := cleanup r
        (⟨c.1, [Ev.stop], publish r .stop, c.2⟩, .ok blob)

/-- `dispose()`: if active, stop the underlying recorder (its own state
becomes `'inactive'`; the resulting artifact is discarded), then
`cleanup()`. -/
def dispose (r : RecorderM) : StepOut :=
  let r1 :=
    match r.mediaRecorder with
    | some m =>
        if m.recState ≠ .inactive then
          { r with mediaRecorder := some { m with recState := .inactive } }
        else r
    | none => r
  let c := cleanup r1
  ⟨c.1, [], [], c.2⟩

/-- Deliver a sequence of `dataavailable` notifications from the underlying
recorder, in order; returns the final state and the public events
dispatched. -/
def deliverAll (r : RecorderM) : List (Blob × Nat) → RecorderM × List Ev
  | [] => (r, [])
  | c :: rest =>
      let o := dataavailableFired r c.1 c.2
      let t := deliverAll o.st rest
      (t.1, o.events ++ t.2)

/-- The deliveries the `dataavailable` listener keeps: those with positive
size. -/
def keptDeliveries (cs : List (Blob × Nat)) : List (Blob × Nat) :=
  cs.filter (fun c => decide (0 < c.1.size))

/-- The payloads of the `dataavailable` events in a public event sequence,
in order. -/
def dataPayloads : List Ev → List Bytes
  | [] => []
  | Ev.dataavailable b _ :: rest => b.data :: dataPayloads rest
  | _ :: rest => dataPayloads rest

/-- `x || d` on numbers never yields `0` when the default is nonzero. -/
theorem orDefaultNat_ne_zero (v : Option Nat) (d : Nat) (hd : d ≠ 0) :
    orDefaultNat v d ≠ 0 := by
  cases v with
  | none => simpa [orDefaultNat] using hd
  | some n =>
      by_cases hn : n = 0
      · simpa [orDefaultNat, hn] using hd
      · simp [orDefaultNat, hn]

/-- `x || d` on strings never yields `""` when the default is nonempty. -/
theorem orDefaultStr_ne_empty (v : Option String) (d : String) (hd : d ≠ "") :
    orDefaultStr v d ≠ "" := by
  cases v with
  | none => simpa [orDefaultStr] using hd
  | some s =>
      by_cases hs : s = ""
      · simpa [orDefaultStr, hs] using hs ▸ hd
      · simp [orDefaultStr, hs]

/-- Concrete sample states for instantiating the claims below. -/
def optsNone : RecorderOptions := {}

/-- A sample stream with one live track. -/
def streamS1 : MediaStream := ⟨[1]⟩

/-- A sample session in the `recording` state. -/
def rRecSample : RecorderM :=
  { mkRecorder optsNone with
      audioStream := some streamS1
      mediaRecorder := some ⟨"audio/webm", 128000, 1000, .recording⟩ }

/-- A sample inactive session. -/
def rInactSample : RecorderM := mkRecorder optsNone

/-- A sample environment whose device request is denied. -/
def envSample : Env := ⟨Except.error RecError.deviceUnavailable, fun _ => false⟩

/-- C1: each operation called from a state where it is invalid — `start()`
when not inactive, `pause()` when not recording, `resume()` when not
paused, `stop()` when inactive — throws the documented error
(`AlreadyActive`, `NotRecording`, `NotPaused`, `NotActive`) before any
mutation, so state, chunk buffer, stream handle and registered listeners
are unchanged and nothing is published. -/
theorem C1_invalid_ops (r : RecorderM) (env : Env) :
    (r.state ≠ RecorderState.inactive →
      start env r = (⟨r, [], [], []⟩, Except.error RecError.alreadyActive)) ∧
    (r.state ≠ RecorderState.recording →
      pause r = (⟨r, [], [], []⟩, Except.error RecError.notRecording)) ∧
    (r.state ≠ RecorderState.paused →
      resume r = (⟨r, [], [], []⟩, Except.error RecError.notPaused)) ∧
    (r.state = RecorderState.inactive →
      stop r = (⟨r, [], [], []⟩, Except.error RecError.notActive)) := by
  refine ⟨?_, ?_, ?_, ?_⟩
  · intro hst
    cases h : r.mediaRecorder with
    | none => exact absurd (by simp [RecorderM.state, h]) hst
    | some m => simp [start, h, hst]
  · intro hst
    cases h : r.mediaRecorder with
    | none => simp [pause, h]
    | some m =>
        have hm : m.recState ≠ RecorderState.recording := by
          intro he; exact hst (by simp [RecorderM.state, h, he])
        simp [pause, h, hm]
  · intro hst
    cases h : r.mediaRecorder with
    | none => simp [resume, h]
    | some m =>
        have hm : m.recState ≠ RecorderState.paused := by
          intro he; exact hst (by simp [RecorderM.state, h, he])
        simp [resume, h, hm]
  · intro hst
    cases h : r.mediaRecorder with
    | none => simp [stop, h]
    | some m =>
        have hm : m.recState = RecorderState.inactive := by
          simpa [RecorderM.state, h] using hst
        simp [stop, h, hm]

/-- Witness for C1: a recording session rejects `start`/`resume`, an
inactive one rejects `pause`/`stop`, each leaving the state untouched. -/
theorem C1_witness :
    start envSample rRecSample
      = (⟨rRecSample, [], [], []⟩, Except.error RecError.alreadyActive) ∧
    pause rInactSample
      = (⟨rInactSample, [], [], []⟩, Except.error RecError.notRecording) ∧
    resume rRecSample
      = (⟨rRecSample, [], [], []⟩, Except.error RecError.notPaused) ∧
    stop rInactSample
      = (⟨rInactSample, [], [], []⟩, Except.error RecError.notActive) :=
  ⟨(C1_invalid_ops rRecSample envSample).1 (by decide),
   (C1_invalid_ops rInactSample envSample).2.1 (by decide),
   (C1_invalid_ops rRecSample envSample).2.2.1 (by decide),
   (C1_invalid_ops rInactSample envSample).2.2.2 (by decide)⟩

/-- C8: `dispose()` from any state leaves the session inactive with the
device released, and a second `dispose()` is a no-op: it throws nothing
(it is total), changes nothing, and stops no track a second time. -/
theorem C8_dispose_idempotent (r : RecorderM) :
    (dispose r).st.state = RecorderState.inactive ∧
    (dispose r).st.audioStream = none ∧
    (dispose r).st.mediaRecorder = none ∧
    dispose (dispose r).st = ⟨(dispose r).st, [], [], []⟩ := by
  obtain ⟨mr, as, ch, op, eh, ls⟩ := r
  cases mr with
  | none => cases as <;> simp [dispose, cleanup, RecorderM.state]
  | some m =>
      obtain ⟨mt, bps, ts, rs⟩ := m
      cases rs <;> cases as <;> simp [dispose, cleanup, RecorderM.state]

/-- C9: a chunk notification from the encoder is buffered and published —
to the `EventTarget` listeners and then the construction-time handler —
exactly when its size is positive; a zero-size chunk is dropped silently:
not buffered, no event, no handler invoked. -/
theorem C9_zero_size_chunks (r : RecorderM) (b : Blob) (t : Nat) :
    (0 < b.size →
      dataavailableFired r b t =
        ⟨{ r with chunks := r.chunks ++ [b] }, [Ev.dataavailable b t],
          publish r EvKind.dataavailable, []⟩) ∧
    (b.size = 0 → dataavailableFired r b t = ⟨r, [], [], []⟩) := by
  constructor
  · intro h; simp [dataavailableFired, h]
  · intro h; simp [dataavailableFired, h]

/-- A sample one-byte chunk. -/
def blobPos : Blob := ⟨[9], "audio/webm"⟩

/-- A sample zero-size chunk. -/
def blobZero : Blob := ⟨[], "audio/webm"⟩

/-- Witness for C9: a one-byte chunk is buffered and published, a zero-size
chunk does nothing. -/
theorem C9_witness :
    dataavailableFired rInactSample blobPos 5 =
      ⟨{ rInactSample with chunks := [blobPos] }, [Ev.dataavailable blobPos 5],
        [], []⟩ ∧
    dataavailableFired rInactSample blobZero 5 = ⟨rInactSample, [], [], []⟩ := by
  have h1 := (C9_zero_size_chunks rInactSample blobPos 5).1 (by decide)
  have h2 := (C9_zero_size_chunks rInactSample blobZero 5).2 (by decide)
  exact ⟨h1.trans (by decide), h2⟩

/-- C10: construction replaces every absent or falsy configuration field by
its default — missing/empty `mimeType` becomes `audio/webm;codecs=opus`,
missing/zero `audioBitsPerSecond` becomes `128000`, missing/zero
`timeslice` becomes `1000` — so the stored bitrate and chunking interval
are never zero and the stored MIME type is never empty. -/
theorem C10_option_defaults (opts : RecorderOptions) :
    ((opts.mimeType = none ∨ opts.mimeType = some "") →
      (mkRecorder opts).options.mimeType = "audio/webm;codecs=opus") ∧
    ((opts.audioBitsPerSecond = none ∨ opts.audioBitsPerSecond = some 0) →
      (mkRecorder opts).options.audioBitsPerSecond = 128000) ∧
    ((opts.timeslice = none ∨ opts.timeslice = some 0) →
      (mkRecorder opts).options.timeslice = 1000) ∧
    (mkRecorder opts).options.audioBitsPerSecond ≠ 0 ∧
    (mkRecorder opts).options.timeslice ≠ 0 ∧
    (mkRecorder opts).options.mimeType ≠ "" := by
  refine ⟨?_, ?_, ?_,
    orDefaultNat_ne_zero opts.audioBitsPerSecond 128000 (by decide),
    orDefaultNat_ne_zero opts.timeslice 1000 (by decide),
    orDefaultStr_ne_empty opts.mimeType "audio/webm;codecs=opus" (by decide)⟩
  · rintro (h | h) <;> simp [mkRecorder, orDefaultStr, h]
  · rintro (h | h) <;> simp [mkRecorder, orDefaultNat, h]
  · rintro (h | h) <;> simp [mkRecorder, orDefaultNat, h]

/-- Construction stores no `mediaRecorder`. -/
@[simp] theorem mkRecorder_mediaRecorder (opts : RecorderOptions) :
    (mkRecorder opts).mediaRecorder = none := rfl

/-- Construction stores no `audioStream`. -/
@[simp] theorem mkRecorder_audioStream (opts : RecorderOptions) :
    (mkRecorder opts).audioStream = none := rfl

/-- Construction leaves the chunk buffer empty. -/
@[simp] theorem mkRecorder_chunks (opts : RecorderOptions) :
    (mkRecorder opts).chunks = [] := rfl

/-- Construction registers nothing in the `EventTarget` registry. -/
@[simp] theorem mkRecorder_listeners (opts : RecorderOptions) :
    (mkRecorder opts).listeners = [] := rfl

/-- A freshly constructed recorder is inactive. -/
theorem mkRecorder_state (opts : RecorderOptions) :
    (mkRecorder opts).state = RecorderState.inactive := rfl

/-- Evaluation of a successful `start()` from an inactive state: the stream
is stored, the recorder created with the negotiated MIME type, the chunk
buffer cleared, and nothing published. -/
theorem start_ok (env : Env) (r : RecorderM) (s : MediaStream)
    (hst : r.state = RecorderState.inactive)
    (hdev : env.device = Except.ok s)
    (hsup : env.supported (negotiateMime env.supported r.options.mimeType) = true) :
    start env r =
      (⟨{ r with
            audioStream := some s
            mediaRecorder :=
              some ⟨negotiateMime env.supported r.options.mimeType,
                    r.options.audioBitsPerSecond, r.options.timeslice,
                    RecorderState.recording⟩
            chunks := [] }, [], [], []⟩, Except.ok ()) := by
  simp [start, startPhase2, hst, hdev, hsup]

/-- Evaluation of a delivery sequence: the positive-size chunks are appended
in arrival order, and exactly they are published as `dataavailable`
events. -/
theorem deliverAll_spec (cs : List (Blob × Nat)) (r : RecorderM) :
    deliverAll r cs =
      ({ r with chunks := r.chunks ++ (keptDeliveries cs).map Prod.fst },
        (keptDeliveries cs).map (fun c => Ev.dataavailable c.1 c.2)) := by
  induction cs generalizing r with
  | nil => simp [deliverAll, keptDeliveries]
  | cons c rest ih =>
      by_cases hc : 0 < c.1.size
      · simp [deliverAll, dataavailableFired, keptDeliveries, hc, ih,
          List.filter_cons, List.append_assoc]
      · simp [deliverAll, dataavailableFired, keptDeliveries, hc, ih,
          List.filter_cons]

/-- The `dataavailable` payloads of a mapped delivery list. -/
theorem dataPayloads_map (l : List (Blob × Nat)) :
    dataPayloads (l.map (fun c => Ev.dataavailable c.1 c.2)) =
      l.map (fun c => c.1.data) := by
  induction l with
  | nil => rfl
  | cons c rest ih => simp [dataPayloads, ih]

/-- `firstSupported` returns an element of the list. -/
theorem firstSupported_mem (supported : String → Bool) (l : List String)
    (t : String) (h : firstSupported supported l = some t) : t ∈ l := by
  induction l with
  | nil => simp [firstSupported] at h
  | cons a rest ih =>
      by_cases ha : supported a
      · simp [firstSupported, ha] at h
        simp [h]
      · simp [firstSupported, ha] at h
        exact List.mem_cons_of_mem _ (ih h)

/-- `firstSupported` returns a supported element. -/
theorem firstSupported_supported (supported : String → Bool) (l : List String)
    (t : String) (h : firstSupported supported l = some t) :
    supported t = true := by
  induction l with
  | nil => simp [firstSupported] at h
  | cons a rest ih =>
      by_cases ha : supported a
      · simp [firstSupported, ha] at h
        exact h ▸ ha
      · simp [firstSupported, ha] at h
        exact ih h

/-- Negotiation never yields the empty string when the preferred type is
nonempty (the hard-coded fallbacks are all nonempty). -/
theorem negotiateMime_ne_empty (supported : String → Bool) (p : String)
    (hp : p ≠ "") : negotiateMime supported p ≠ "" := by
  unfold negotiateMime
  split
  · exact hp
  · cases hfs : firstSupported supported fallbackTypes with
    | none => simpa [hfs] using hp
    | some t =>
        have ht := firstSupported_mem supported fallbackTypes t hfs
        have htne : t ≠ "" := by
          simp [fallbackTypes] at ht
          rcases ht with h | h | h | h <;> subst h <;> decide
        simpa [hfs] using htne

/-- C3: when the device collaborator rejects, `start()` rejects with that
same error (`DeviceUnavailable`), runs `cleanup()` so the session ends
inactive with no stream, recorder or chunks retained and any previously
held track stopped, and publishes no event and invokes no handler. -/
theorem C3_device_rejection (r : RecorderM) (env : Env) (e : RecError)
    (hst : r.state = RecorderState.inactive)
    (hdev : env.device = Except.error e) :
    (start env r).2 = Except.error e ∧
    (start env r).1.st.state = RecorderState.inactive ∧
    (start env r).1.st.audioStream = none ∧
    (start env r).1.st.mediaRecorder = none ∧
    (start env r).1.st.chunks = [] ∧
    (start env r).1.events = [] ∧
    (start env r).1.handlers = [] ∧
    (start env r).1.stoppedTracks =
      (match r.audioStream with | some s => s.tracks | none => []) := by
  have hs : start env r = (⟨(cleanup r).1, [], [], (cleanup r).2⟩, Except.error e) := by
    simp [start, startPhase2, hst, hdev]
  rw [hs]
  cases ha : r.audioStream <;> simp [cleanup, ha, RecorderM.state]

/-- A sample environment whose device request is rejected. -/
def envDeny : Env := ⟨Except.error RecError.deviceUnavailable, fun _ => true⟩

/-- Witness for C3: a denied permission request makes `start()` reject with
the device error, leaving an inactive session and no published events. -/
theorem C3_witness :
    (start envDeny (mkRecorder optsNone)).2
      = Except.error RecError.deviceUnavailable ∧
    (start envDeny (mkRecorder optsNone)).1.st.state = RecorderState.inactive ∧
    (start envDeny (mkRecorder optsNone)).1.st.audioStream = none ∧
    (start envDeny (mkRecorder optsNone)).1.events = [] := by
  have h := C3_device_rejection (mkRecorder optsNone) envDeny
      RecError.deviceUnavailable rfl rfl
  exact ⟨h.1, h.2.1, h.2.2.1, h.2.2.2.2.2.1⟩

/-- C6: negotiation tests the preferred MIME type first, then each fallback
in listed order, and `start()` records the first supported one; when no
type at all is supported, `start()` rejects with the unsupported-format
error (raised, per the MediaRecorder contract, by the encoder constructor)
and the session ends inactive with the stream released. -/
theorem C6_negotiation (env : Env) (opts : RecorderOptions) (s : MediaStream)
    (hdev : env.device = Except.ok s) :
    (∀ t, firstSupported env.supported
        ((mkRecorder opts).options.mimeType :: fallbackTypes) = some t →
      negotiateMime env.supported (mkRecorder opts).options.mimeType = t ∧
      (start env (mkRecorder opts)).2 = Except.ok () ∧
      ((start env (mkRecorder opts)).1.st.mediaRecorder.map
          MediaRecorderM.mimeType) = some t) ∧
    (firstSupported env.supported
        ((mkRecorder opts).options.mimeType :: fallbackTypes) = none →
      (start env (mkRecorder opts)).2 = Except.error RecError.unsupportedFormat ∧
      (start env (mkRecorder opts)).1.st.state = RecorderState.inactive ∧
      (start env (mkRecorder opts)).1.st.audioStream = none) := by
  constructor
  · intro t h
    by_cases hp : env.supported (mkRecorder opts).options.mimeType = true
    · have ht : (mkRecorder opts).options.mimeType = t := by
        simpa [firstSupported, hp] using h
      have hneg : negotiateMime env.supported (mkRecorder opts).options.mimeType
          = (mkRecorder opts).options.mimeType := by
        simp [negotiateMime, hp]
      have hsup : env.supported
          (negotiateMime env.supported (mkRecorder opts).options.mimeType)
          = true := by rw [hneg]; exact hp
      have hs := start_ok env (mkRecorder opts) s rfl hdev hsup
      refine ⟨hneg.trans ht, ?_, ?_⟩
      · rw [hs]
      · rw [hs]; simpa using hneg.trans ht
    · have hp' : env.supported (mkRecorder opts).options.mimeType = false := by
        simpa using hp
      have hfb : firstSupported env.supported fallbackTypes = some t := by
        simpa [firstSupported, hp'] using h
      have hneg : negotiateMime env.supported (mkRecorder opts).options.mimeType
          = t := by simp [negotiateMime, hp', hfb]
      have hsup : env.supported
          (negotiateMime env.supported (mkRecorder opts).options.mimeType)
          = true := by
        rw [hneg]; exact firstSupported_supported env.supported fallbackTypes t hfb
      have hs := start_ok env (mkRecorder opts) s rfl hdev hsup
      refine ⟨hneg, ?_, ?_⟩
      · rw [hs]
      · rw [hs]; simp [hneg]
  · intro h
    by_cases hp : env.supported (mkRecorder opts).options.mimeType = true
    · simp [firstSupported, hp] at h
    · have hp' : env.supported (mkRecorder opts).options.mimeType = false := by
        simpa using hp
      have hfb : firstSupported env.supported fallbackTypes = none := by
        simpa [firstSupported, hp'] using h
      have hneg : negotiateMime env.supported (mkRecorder opts).options.mimeType
          = (mkRecorder opts).options.mimeType := by
        simp [negotiateMime, hp', hfb]
      refine ⟨?_, ?_, ?_⟩ <;>
        simp [start, startPhase2, RecorderM.state, hdev, hneg, hp', cleanup]

/-- A sample stream for the negotiation scenarios. -/
def streamC6 : MediaStream := ⟨[2]⟩

/-- An environment supporting only `audio/mp4`. -/
def envMp4 : Env := ⟨Except.ok streamC6, fun t => t == "audio/mp4"⟩

/-- An environment supporting nothing. -/
def envNoSup : Env := ⟨Except.ok streamC6, fun _ => false⟩

/-- Options preferring an exotic MIME type. -/
def optsPrefX : RecorderOptions := { mimeType := some "audio/x-nope" }

/-- Witness for C6: with only `audio/mp4` supported, an exotic preference
falls back to `audio/mp4` (third fallback, first supported); with nothing
supported, `start()` rejects with the unsupported-format error. -/
theorem C6_witness :
    negotiateMime envMp4.supported (mkRecorder optsPrefX).options.mimeType
      = "audio/mp4" ∧
    (start envMp4 (mkRecorder optsPrefX)).2 = Except.ok () ∧
    (start envNoSup (mkRecorder optsPrefX)).2
      = Except.error RecError.unsupportedFormat := by
  have h1 := (C6_negotiation envMp4 optsPrefX streamC6 rfl).1 "audio/mp4" (by decide)
  have h2 := (C6_negotiation envNoSup optsPrefX streamC6 rfl).2 (by decide)
  exact ⟨h1.1, h1.2.1, h2.1⟩

/-- C4 (amended): a device-originated error notification while the session
is active is relayed as exactly one public `error` event, delivered to the
registered listeners and then the construction-time handler; the wrapper
performs no state transition, runs no `cleanup()`, and stops no track. -/
theorem C4_amended_error_relay (r : RecorderM) (msg : String) :
    (errorFired r msg).events = [Ev.error msg] ∧
    (errorFired r msg).handlers = publish r EvKind.error ∧
    (errorFired r msg).st = r ∧
    (errorFired r msg).stoppedTracks = [] :=
  ⟨rfl, rfl, rfl, rfl⟩

/-- A stream held by the session hit by the device error. -/
def streamC4 : MediaStream := ⟨[4]⟩

/-- A recording session holding `streamC4`. -/
def rRecC4 : RecorderM :=
  { mkRecorder optsNone with
      audioStream := some streamC4
      mediaRecorder := some ⟨"audio/webm", 128000, 1000, .recording⟩ }

/-- Counterexample to C4 as stated: on a device error during recording the
session is neither forced inactive nor is the device released — the state
is still `recording`, the stream is still held and no track is halted;
only the single `error` event is emitted. -/
theorem C4_counterexample :
    rRecC4.state = RecorderState.recording ∧
    (errorFired rRecC4 "device failure").st.state = RecorderState.recording ∧
    (errorFired rRecC4 "device failure").st.audioStream = some streamC4 ∧
    (errorFired rRecC4 "device failure").stoppedTracks = [] ∧
    (errorFired rRecC4 "device failure").events = [Ev.error "device failure"] := by
  decide

/-- `dispose()` resets the recorder, stream and chunks and nothing else. -/
theorem dispose_st (r : RecorderM) :
    (dispose r).st =
      { r with mediaRecorder := none, audioStream := none, chunks := [] } := by
  obtain ⟨mr, as, ch, op, eh, ls⟩ := r
  cases mr with
  | none => cases as <;> simp [dispose, cleanup]
  | some m =>
      obtain ⟨mt, bps, ts, rs⟩ := m
      cases rs <;> cases as <;> simp [dispose, cleanup]

/-- C5 (amended): `dispose()` during an outstanding `start()` leaves the
session inactive with no device held at that moment; but the `start()`
continuation carries no disposal check, so when the pending permission
request later resolves with a grant it re-acquires the stream, re-creates
the encoder and moves the session to `recording` — the released device is
resurrected.  (After a later denial the session stays inactive.) -/
theorem C5_amended_resurrection (r : RecorderM) (supported : String → Bool)
    (s : MediaStream) (e : RecError)
    (hsup : supported (negotiateMime supported r.options.mimeType) = true) :
    (dispose r).st.state = RecorderState.inactive ∧
    (dispose r).st.audioStream = none ∧
    (startPhase2 supported (dispose r).st (Except.ok s)).2 = Except.ok () ∧
    (startPhase2 supported (dispose r).st (Except.ok s)).1.st.state
      = RecorderState.recording ∧
    (startPhase2 supported (dispose r).st (Except.ok s)).1.st.audioStream
      = some s ∧
    (startPhase2 supported (dispose r).st (Except.error e)).1.st.state
      = RecorderState.inactive := by
  rw [dispose_st]
  simp [startPhase2, RecorderM.state, cleanup, hsup]

/-- A capability predicate supporting every MIME type. -/
def allTrue : String → Bool := fun _ => true

/-- The stream granted after disposal. -/
def streamC5 : MediaStream := ⟨[3]⟩

/-- Witness for C5 (amended) at a fresh recorder, an all-supporting
platform and a one-track grant. -/
theorem C5_amended_witness :
    (dispose (mkRecorder optsNone)).st.state = RecorderState.inactive ∧
    (startPhase2 allTrue (dispose (mkRecorder optsNone)).st
        (Except.ok streamC5)).1.st.state = RecorderState.recording := by
  have h := C5_amended_resurrection (mkRecorder optsNone) allTrue streamC5
      RecError.deviceUnavailable rfl
  exact ⟨h.1, h.2.2.2.1⟩

/-- Counterexample to C5 as stated: after `dispose()` is called while the
permission request of `start()` is outstanding, the request's later grant
re-acquires the stream and re-creates the encoder — the session ends up
`recording` with a live stream instead of staying released. -/
theorem C5_counterexample :
    (startPhase2 allTrue (dispose (mkRecorder optsNone)).st
        (Except.ok streamC5)).1.st.state = RecorderState.recording ∧
    (startPhase2 allTrue (dispose (mkRecorder optsNone)).st
        (Except.ok streamC5)).1.st.audioStream = some streamC5 := by
  decide

/-- Listener entry contributed by one optional construction handler. -/
def ctorEntry (k : EvKind) : Option Nat → List (EvKind × Nat)
  | some h => [(k, h)]
  | none => []

/-- Spec model for C7, following the spec's words: construction-time
handlers are registered through the same mechanism as ad-hoc
subscriptions, i.e. entered into the `EventTarget` listener registry at
construction time, with no separate handler record. -/
def mkRecorderUnified (opts : RecorderOptions) : RecorderM :=
  { mkRecorder opts with
      eventHandlers := {}
      listeners :=
        ctorEntry .start opts.onStart ++ ctorEntry .stop opts.onStop ++
        ctorEntry .pause opts.onPause ++ ctorEntry .resume opts.onResume ++
        ctorEntry .dataavailable opts.onDataAvailable ++
        ctorEntry .error opts.onError }

/-- Dispatch distributes over registry concatenation. -/
theorem dispatchList_append (l1 l2 : List (EvKind × Nat)) (k : EvKind) :
    dispatchList (l1 ++ l2) k = dispatchList l1 k ++ dispatchList l2 k := by
  induction l1 with
  | nil => rfl
  | cons p rest ih => by_cases hp : p.1 = k <;> simp [dispatchList, hp, ih]

/-- Ad-hoc subscriptions append to the registry in order. -/
theorem subscribeAll_listeners (r : RecorderM) (k : EvKind) (hs : List Nat) :
    (subscribeAll r k hs).listeners
      = r.listeners ++ hs.map (fun h => (k, h)) := by
  induction hs generalizing r with
  | nil => simp [subscribeAll]
  | cons h rest ih =>
      show (subscribeAll (subscribe r k h) k rest).listeners = _
      rw [ih]
      simp [subscribe]

/-- Ad-hoc subscriptions do not touch the construction-handler record. -/
theorem subscribeAll_eventHandlers (r : RecorderM) (k : EvKind) (hs : List Nat) :
    (subscribeAll r k hs).eventHandlers = r.eventHandlers := by
  induction hs generalizing r with
  | nil => rfl
  | cons h rest ih =>
      show (subscribeAll (subscribe r k h) k rest).eventHandlers = _
      rw [ih]
      rfl

/-- Dispatch of a same-kind block returns its handlers in order. -/
theorem dispatchList_map_same (hs : List Nat) (k : EvKind) :
    dispatchList (hs.map (fun h => (k, h))) k = hs := by
  induction hs with
  | nil => rfl
  | cons h rest ih => simp [dispatchList, ih]

/-- C7 (amended): construction-time handlers are not registered in the
`EventTarget` registry; they live in a separate record and each publication
first dispatches to the ad-hoc listeners, in subscription order, and then
directly invokes the construction-time handler — both kinds are invoked
exactly once per publication, but through two distinct mechanisms, the
construction-time handler always last. -/
theorem C7_amended_two_paths (opts : RecorderOptions) (k : EvKind)
    (hs : List Nat) :
    (mkRecorder opts).listeners = [] ∧
    publish (subscribeAll (mkRecorder opts) k hs) k =
      hs ++ handlerList (ctorHandler (mkRecorder opts).eventHandlers k) := by
  refine ⟨rfl, ?_⟩
  rw [publish, subscribeAll_listeners, subscribeAll_eventHandlers]
  simp [dispatchList_append, dispatchList_map_same]

/-- Options passing one construction-time start handler (id 0). -/
def optsC7 : RecorderOptions := { onStart := some 0 }

/-- The code's recorder with the construction handler 0 and one ad-hoc
subscription 1. -/
def rCodeC7 : RecorderM := subscribe (mkRecorder optsC7) .start 1

/-- The unified-mechanism recorder with the same two handlers. -/
def rUnifC7 : RecorderM := subscribe (mkRecorderUnified optsC7) .start 1

/-- Counterexample to C7 as stated: the construction-time handler is not
entered into the listener registry (the registries differ), and a `start`
publication invokes the handlers as `[1, 0]` — ad-hoc listener first, then
the construction handler via its separate record — where the unified
mechanism of the spec delivers `[0, 1]`. -/
theorem C7_counterexample :
    (mkRecorder optsC7).listeners = [] ∧
    (mkRecorderUnified optsC7).listeners = [(EvKind.start, 0)] ∧
    publish rCodeC7 EvKind.start = [1, 0] ∧
    publish rUnifC7 EvKind.start = [0, 1] ∧
    publish rCodeC7 EvKind.start ≠ publish rUnifC7 EvKind.start := by
  decide

/-- Evaluation of a successful `stop()`: the artifact is the concatenation
of the buffered chunks tagged with the current `mimeType` getter value. -/
theorem stop_ok (r : RecorderM) (m : MediaRecorderM)
    (hm : r.mediaRecorder = some m)
    (hrec : m.recState ≠ RecorderState.inactive) :
    (stop r).2 = Except.ok (Blob.joined r.chunks r.mimeTypeGet) := by
  simp [stop, hm, hrec]

/-- C2: between a successful `start()` and the following `stop()`, the
artifact `stop()` resolves with is the ordered concatenation of exactly the
chunks published as `data` events in between, tagged with the MIME type
negotiated during that `start()`. -/
theorem C2_artifact (opts : RecorderOptions) (env : Env) (s : MediaStream)
    (cs : List (Blob × Nat))
    (hdev : env.device = Except.ok s)
    (hsup : env.supported
        (negotiateMime env.supported (mkRecorder opts).options.mimeType)
      = true) :
    (stop (deliverAll (start env (mkRecorder opts)).1.st cs).1).2 =
      Except.ok
        ⟨(dataPayloads
            (deliverAll (start env (mkRecorder opts)).1.st cs).2).flatten,
          negotiateMime env.supported (mkRecorder opts).options.mimeType⟩ := by
  have hpne : (mkRecorder opts).options.mimeType ≠ "" :=
    orDefaultStr_ne_empty opts.mimeType "audio/webm;codecs=opus" (by decide)
  have hne := negotiateMime_ne_empty env.supported _ hpne
  have hs := start_ok env (mkRecorder opts) s rfl hdev hsup
  rw [hs, deliverAll_spec]
  simp [stop, RecorderM.mimeTypeGet, Blob.joined, hne, dataPayloads_map,
    List.map_map]
  rfl

/-- The stream granted in the concatenation scenario. -/
def streamC2 : MediaStream := ⟨[7]⟩

/-- An environment granting `streamC2` and supporting every MIME type. -/
def envAll : Env := ⟨Except.ok streamC2, allTrue⟩

/-- Three deliveries of sizes 1, 0 and 2 bytes. -/
def csW2 : List (Blob × Nat) :=
  [(⟨[10], "audio/webm"⟩, 0), (⟨[], "audio/webm"⟩, 1),
   (⟨[20, 30], "audio/webm"⟩, 2)]

/-- Witness for C2: the two positive-size chunks are concatenated in
arrival order (the zero-size one was never a `data` event) and tagged with
the negotiated default MIME type. -/
theorem C2_witness :
    (stop (deliverAll (start envAll (mkRecorder optsNone)).1.st csW2).1).2 =
      Except.ok ⟨[10, 20, 30], "audio/webm;codecs=opus"⟩ := by
  have h := C2_artifact optsNone envAll streamC2 csW2 rfl rfl
  exact h.trans (by rfl)

/-- Options passing `''`/`0`/`0`, the falsy-but-present configuration. -/
def optsZero : RecorderOptions :=
  { mimeType := some "", audioBitsPerSecond := some 0, timeslice := some 0 }

/-- Witness for C10: the all-falsy configuration is replaced by all three
defaults. -/
theorem C10_witness :
    (mkRecorder optsZero).options.mimeType = "audio/webm;codecs=opus" ∧
    (mkRecorder optsZero).options.audioBitsPerSecond = 128000 ∧
    (mkRecorder optsZero).options.timeslice = 1000 :=
  ⟨(C10_option_defaults optsZero).1 (Or.inr rfl),
   (C10_option_defaults optsZero).2.1 (Or.inr rfl),
   (C10_option_defaults optsZero).2.2.1 (Or.inr rfl)⟩

end RecorderEs
